import Mathlib

/-!
The gmacs buffer-diff plugin: host/plugin RPC bridge.

A shallow embedding of `plugin.go`.

Conventions of the embedding:

* a Go `string` is a Lean `String`;
* a Go `error` is `Option GoError`, `none` being the nil error, and an error
  value is identified with the text its `Error()` method returns;
* a Go slice is a `List` (the nil slice and the empty slice are both `[]`);
* a Go `int` is an `Int` (no arithmetic is done on positions; counts are `Nat`);
* an interface value that may be nil is an `Option`;
* `fmt.Printf` logging has no effect on any returned value and is left out;
* `client.Call(method, args, &resp)` is a function from the method name and
  the argument to a `CallResult`: the value left in `resp` and the returned
  error.
-/

set_option autoImplicit false

namespace GmacsDiff

/-! ## Go values -/

/-- A Go error value, identified with its message. -/
structure GoError where
  msg : String
deriving DecidableEq, Repr

/-- The method `Error()` of a Go error. -/
def GoError.Error (e : GoError) : String := e.msg

/-- The call `fmt.Errorf(...)` once the format string has been expanded. -/
def fmt.Errorf (text : String) : Option GoError := some ⟨text⟩

/-- Dynamic values held in an `interface{}`: the dynamic types the source
asserts on (`string`, `uint32`, `[]interface{}`), and some others. -/
inductive GoValue where
  | nil
  | str (s : String)
  | int (n : Int)
  | uint32 (n : Nat)
  | bool (b : Bool)
  | slice (vs : List GoValue)

/-- The type assertion `v.(string)`: the value and `ok`. -/
def GoValue.assertString : GoValue → String × Bool
  | GoValue.str s => (s, true)
  | _ => ("", false)

/-- The type assertion `v.(uint32)`: the value and `ok`. -/
def GoValue.assertUint32 : GoValue → Nat × Bool
  | GoValue.uint32 n => (n, true)
  | _ => (0, false)

/-- The type assertion `v.([]interface{})`: the value and `ok`. -/
def GoValue.assertSlice : GoValue → List GoValue × Bool
  | GoValue.slice vs => (vs, true)
  | _ => ([], false)

/-- A `map[string]interface{}`, as its list of entries. -/
abbrev GoMap := List (String × GoValue)

/-- The index expression `m[key]`; a missing key gives the nil interface. -/
def GoMap.index (m : GoMap) (key : String) : GoValue :=
  (m.lookup key).getD GoValue.nil

/-- The index expression `args[i]` on a `[]interface{}`, used under a length
check in the source. -/
def GoValue.index (args : List GoValue) (i : Nat) : GoValue :=
  args.getD i GoValue.nil

/-- Outcome of `client.Call(method, args, &resp)`, and of an RPC handler:
the value left in `resp` and the returned error. -/
structure CallResult (α : Type) where
  resp : α
  err : Option GoError

/-! ## Library functions of package `strings` -/

/-- Pieces of a character list between occurrences of `sep`. -/
def splitChars (sep : Char) : List Char → List (List Char)
  | [] => [[]]
  | c :: cs =>
    if c = sep then [] :: splitChars sep cs
    else
      match splitChars sep cs with
      | [] => [[c]]
      | piece :: pieces => (c :: piece) :: pieces

/-- The call `strings.Split(s, sep)` for a separator of one character (the
source only splits on a newline). -/
def strings.Split (s : String) (sep : Char) : List String :=
  (splitChars sep s.data).map String.mk

/-- The call `strings.Join(elems, sep)`. -/
def strings.Join (elems : List String) (sep : String) : String :=
  sep.intercalate elems

/-- The call `strings.HasPrefix(s, p)`. -/
def strings.HasPrefix (s p : String) : Bool :=
  p.data.isPrefixOf s.data

/-! ## Data model -/

/-- The struct `BufferInfo`: buffer state for RPC transmission. -/
structure BufferInfo where
  Name : String := ""
  Content : String := ""
  Position : Int := 0
  IsDirty : Bool := false
  Filename : String := ""
deriving DecidableEq, Repr

/-- The struct `RPCBufferProxy`. Its field `client` is read by none of its
methods and is left out. -/
structure RPCBufferProxy where
  info : BufferInfo
deriving DecidableEq, Repr

/-- The interface `pluginsdk.BufferInterface` of a host buffer object, over
the host state `σ`: accessors read the state, `SetContent` changes it. -/
structure BufferInterface (σ : Type) where
  Name : σ → String
  Content : σ → String
  CursorPosition : σ → Int
  IsDirty : σ → Bool
  Filename : σ → String
  SetContent : String → σ → σ

/-- The methods of `pluginsdk.HostInterface` that the source calls on a host
implementation, over the host state `σ`. A nil buffer is `none`. -/
structure HostInterface (σ : Type) where
  GetCurrentBuffer : σ → Option (BufferInterface σ) × σ
  FindBuffer : String → σ → Option (BufferInterface σ) × σ
  CreateBuffer : String → σ → Option (BufferInterface σ) × σ
  SwitchToBuffer : String → σ → Option GoError × σ
  OpenFile : String → σ → Option GoError × σ
  SaveBuffer : String → σ → Option GoError × σ
  SetStatus : String → σ → σ

/-- One call of a host method, as recorded in the trace of a run. -/
inductive HostCall where
  | GetCurrentBuffer
  | FindBuffer (name : String)
  | CreateBuffer (name : String)
  | SwitchToBuffer (name : String)
deriving DecidableEq, Repr

/-- What the plugin logic runs against: the host state and the trace of the
host methods called so far, oldest first. -/
structure World (σ : Type) where
  state : σ
  calls : List HostCall

/-- The struct `BufferDiffPlugin`; a nil `host` is `none`. -/
structure BufferDiffPlugin (σ : Type) where
  host : Option (HostInterface σ)

/-- The struct `pluginsdk.CommandSpec`, with the fields the source sets. -/
structure CommandSpec where
  Name : String
  Description : String
  Interactive : Bool
  Handler : String
  ArgPrompts : List String
deriving DecidableEq, Repr

/-! ## The plugin: `BufferDiffPlugin` -/

variable {σ : Type}

/-- The call `p.host.FindBuffer(name)`, recorded in the trace. -/
def HostInterface.callFindBuffer (h : HostInterface σ) (name : String) (w : World σ) :
    Option (BufferInterface σ) × World σ :=
  ((h.FindBuffer name w.state).1,
    ⟨(h.FindBuffer name w.state).2, w.calls ++ [HostCall.FindBuffer name]⟩)

/-- The call `p.host.CreateBuffer(name)`, recorded in the trace. -/
def HostInterface.callCreateBuffer (h : HostInterface σ) (name : String) (w : World σ) :
    Option (BufferInterface σ) × World σ :=
  ((h.CreateBuffer name w.state).1,
    ⟨(h.CreateBuffer name w.state).2, w.calls ++ [HostCall.CreateBuffer name]⟩)

/-- The call `p.host.GetCurrentBuffer()`, recorded in the trace. -/
def HostInterface.callGetCurrentBuffer (h : HostInterface σ) (w : World σ) :
    Option (BufferInterface σ) × World σ :=
  ((h.GetCurrentBuffer w.state).1,
    ⟨(h.GetCurrentBuffer w.state).2, w.calls ++ [HostCall.GetCurrentBuffer]⟩)

/-- The call `p.host.SwitchToBuffer(name)`, recorded in the trace. -/
def HostInterface.callSwitchToBuffer (h : HostInterface σ) (name : String) (w : World σ) :
    Option GoError × World σ :=
  ((h.SwitchToBuffer name w.state).1,
    ⟨(h.SwitchToBuffer name w.state).2, w.calls ++ [HostCall.SwitchToBuffer name]⟩)

/-- The call `buffer.SetContent(content)` on a host buffer. -/
def BufferInterface.callSetContent (b : BufferInterface σ) (content : String) (w : World σ) :
    World σ :=
  ⟨b.SetContent content w.state, w.calls⟩

/-- The method `BufferDiffPlugin.Initialize`: stores the host, returns nil. -/
def BufferDiffPlugin.Initialize (_p : BufferDiffPlugin σ) (host : Option (HostInterface σ)) :
    Option GoError × BufferDiffPlugin σ :=
  (none, ⟨host⟩)

/-- The method `BufferDiffPlugin.GetCommands`. -/
def BufferDiffPlugin.GetCommands (_p : BufferDiffPlugin σ) : List CommandSpec :=
  [ { Name := "buffer-diff"
      Description := "Compare two buffers and show differences"
      Interactive := true
      Handler := "HandleBufferDiff"
      ArgPrompts := ["Compare buffer: ", "With buffer: "] },
    { Name := "buffer-diff-current"
      Description := "Compare current buffer with another buffer"
      Interactive := true
      Handler := "HandleBufferDiffCurrent"
      ArgPrompts := ["Compare current buffer with: "] } ]

/-- The body of the loop of `createSimpleDiff` at index `i`: the lines it
appends to `result`. -/
def createSimpleDiffStep (lines1 lines2 : List String) (i : Nat) : List String :=
  let line1 := if h : i < lines1.length then lines1.get ⟨i, h⟩ else ""
  let line2 := if h : i < lines2.length then lines2.get ⟨i, h⟩ else ""
  if line1 = line2 then [" " ++ line1]
  else
    (if line1 ≠ "" then ["-" ++ line1] else []) ++
    (if line2 ≠ "" then ["+" ++ line2] else [])

/-- The method `BufferDiffPlugin.createSimpleDiff`. -/
def BufferDiffPlugin.createSimpleDiff (name1 content1 name2 content2 : String) : List String :=
  let lines1 := strings.Split content1 '\n'
  let lines2 := strings.Split content2 '\n'
  let result := ["--- " ++ name1, "+++ " ++ name2, ""]
  let maxLines := if lines2.length > lines1.length then lines2.length else lines1.length
  (List.range maxLines).foldl
    (fun result i => result ++ createSimpleDiffStep lines1 lines2 i) result

/-- The method `BufferDiffPlugin.countDifferences`. -/
def BufferDiffPlugin.countDifferences (diff : List String) : Nat :=
  diff.foldl
    (fun count line =>
      if strings.HasPrefix line "-" || strings.HasPrefix line "+" then count + 1 else count)
    0

/-- The method `BufferDiffPlugin.HandleBufferDiff`. -/
def BufferDiffPlugin.HandleBufferDiff (p : BufferDiffPlugin σ)
    (buffer1Name buffer2Name : String) (w : World σ) : Option GoError × World σ :=
  match p.host with
  | none => (fmt.Errorf "ERROR: host is nil", w)
  | some host =>
    let r1 := host.callFindBuffer buffer1Name w
    let r2 := host.callFindBuffer buffer2Name r1.2
    match r1.1 with
    | none => (fmt.Errorf ("PLUGIN_MESSAGE:Buffer not found: " ++ buffer1Name), r2.2)
    | some buffer1 =>
      match r2.1 with
      | none => (fmt.Errorf ("PLUGIN_MESSAGE:Buffer not found: " ++ buffer2Name), r2.2)
      | some buffer2 =>
        let content1 := buffer1.Content r2.2.state
        let content2 := buffer2.Content r2.2.state
        let diff := BufferDiffPlugin.createSimpleDiff buffer1Name content1 buffer2Name content2
        let diffBufferName := "*Diff: " ++ buffer1Name ++ " <-> " ++ buffer2Name ++ "*"
        let r3 := host.callFindBuffer diffBufferName r2.2
        let r4 :=
          match r3.1 with
          | some found => (some found, r3.2)
          | none => host.callCreateBuffer diffBufferName r3.2
        match r4.1 with
        | none => (fmt.Errorf "PLUGIN_MESSAGE:Failed to create diff buffer", r4.2)
        | some diffBuffer =>
          let w5 := diffBuffer.callSetContent "" r4.2
          let diffContent := strings.Join diff "\n"
          let w6 := diffBuffer.callSetContent diffContent w5
          let r7 := host.callSwitchToBuffer diffBufferName w6
          match r7.1 with
          | some err =>
            (fmt.Errorf ("PLUGIN_MESSAGE:Failed to switch to diff buffer: " ++ err.Error), r7.2)
          | none =>
            (fmt.Errorf ("PLUGIN_MESSAGE:Buffer diff completed: " ++
                toString (BufferDiffPlugin.countDifferences diff) ++ " differences found"),
              r7.2)

/-- The method `BufferDiffPlugin.HandleBufferDiffCurrent`. -/
def BufferDiffPlugin.HandleBufferDiffCurrent (p : BufferDiffPlugin σ)
    (otherBufferName : String) (w : World σ) : Option GoError × World σ :=
  match p.host with
  | none => (fmt.Errorf "ERROR: host is nil", w)
  | some host =>
    let r := host.callGetCurrentBuffer w
    match r.1 with
    | none => (fmt.Errorf "PLUGIN_MESSAGE:No current buffer", r.2)
    | some currentBuffer =>
      let currentBufferName := currentBuffer.Name r.2.state
      p.HandleBufferDiff currentBufferName otherBufferName r.2

/-- The method `BufferDiffPlugin.ExecuteCommand`; `args` is the variadic
`...interface{}`. -/
def BufferDiffPlugin.ExecuteCommand (p : BufferDiffPlugin σ) (name : String)
    (args : List GoValue) (w : World σ) : Option GoError × World σ :=
  if name = "buffer-diff" then
    if args.length ≥ 2 ∧
        (GoValue.index args 0).assertString.2 ∧ (GoValue.index args 1).assertString.2 then
      p.HandleBufferDiff (GoValue.index args 0).assertString.1
        (GoValue.index args 1).assertString.1 w
    else (fmt.Errorf "PLUGIN_MESSAGE:buffer-diff requires 2 buffer names", w)
  else if name = "buffer-diff-current" then
    if args.length ≥ 1 ∧ (GoValue.index args 0).assertString.2 then
      p.HandleBufferDiffCurrent (GoValue.index args 0).assertString.1 w
    else (fmt.Errorf "PLUGIN_MESSAGE:buffer-diff-current requires 1 buffer name", w)
  else (fmt.Errorf ("unknown command: " ++ name), w)

/-! ## Plugin side of the bridge: `RPCServer`, and the host-side `RPCClient` -/

/-- The struct `RPCHostClient`: the RPC client made from the dialled
connection (`rpc.NewClient(conn)` is identified with `conn`). -/
structure RPCHostClient (Conn : Type) where
  client : Conn

/-- The methods of `pluginsdk.Plugin` that `RPCServer.Initialize` and
`RPCServer.ExecuteCommand` call on `Impl`, over the state `ρ` of the plugin
process. `ExecuteCommand` is `none` when the dynamic type of `Impl` has no such
method. -/
structure Plugin (Conn ρ : Type) where
  Initialize : RPCHostClient Conn → ρ → Option GoError × ρ
  ExecuteCommand : Option (String → List GoValue → ρ → Option GoError × ρ)

/-- The part of `plugin.MuxBroker` the plugin side uses: `Dial(id)` gives a
connection or an error. -/
structure MuxBroker (Conn : Type) where
  Dial : Nat → Except GoError Conn

/-- The struct `RPCServer`. -/
structure RPCServer (Conn ρ : Type) where
  Impl : Plugin Conn ρ
  broker : MuxBroker Conn

variable {Conn ρ : Type}

/-- The handler `RPCServer.Initialize`: the value written to `*resp`, the
returned error (always nil), and the new state of the plugin process. -/
def RPCServer.Initialize (s : RPCServer Conn ρ) (args : GoMap) (st : ρ) :
    CallResult (Option GoError) × ρ :=
  let hostBrokerID := (GoMap.index args "hostBrokerID").assertUint32
  if ¬ hostBrokerID.2 then
    (⟨fmt.Errorf "hostBrokerID not provided", none⟩, st)
  else
    match s.broker.Dial hostBrokerID.1 with
    | Except.error err =>
      (⟨fmt.Errorf ("failed to connect to host broker: " ++ err.Error), none⟩, st)
    | Except.ok conn =>
      let hostClient : RPCHostClient Conn := ⟨conn⟩
      let r := s.Impl.Initialize hostClient st
      (⟨r.1, none⟩, r.2)

/-- The handler `RPCServer.ExecuteCommand`: the string written to `*resp`, the
returned error (always nil), and the new state of the plugin process. -/
def RPCServer.ExecuteCommand (s : RPCServer Conn ρ) (args : GoMap) (st : ρ) :
    CallResult String × ρ :=
  let name := (GoMap.index args "name").assertString.1
  let argsSlice := (GoMap.index args "args").assertSlice.1
  match s.Impl.ExecuteCommand with
  | some executeCommand =>
    let r := executeCommand name argsSlice st
    match r.1 with
    | some err => (⟨err.Error, none⟩, r.2)
    | none => (⟨"", none⟩, r.2)
  | none => (⟨"plugin does not support command execution", none⟩, st)

/-- The stub `RPCClient.Name`; `Call` is `c.client.Call`. -/
def RPCClient.Name (Call : String → GoValue → CallResult String) : String :=
  let r := Call "Plugin.Name" GoValue.nil
  match r.err with
  | some _ => ""
  | none => r.resp

/-- The stub `RPCClient.Version`. -/
def RPCClient.Version (Call : String → GoValue → CallResult String) : String :=
  let r := Call "Plugin.Version" GoValue.nil
  match r.err with
  | some _ => ""
  | none => r.resp

/-- The stub `RPCClient.Description`. -/
def RPCClient.Description (Call : String → GoValue → CallResult String) : String :=
  let r := Call "Plugin.Description" GoValue.nil
  match r.err with
  | some _ => ""
  | none => r.resp

/-- The stub `RPCClient.Initialize`. `hostBrokerID` is the value of
`c.broker.NextId()`; the goroutine that accepts on that id and serves the host
is the peer of the plugin's `Dial` and is not part of the returned value. -/
def RPCClient.Initialize (hostBrokerID : Nat)
    (Call : String → GoMap → CallResult (Option GoError)) : Option GoError :=
  let args : GoMap := [("hostBrokerID", GoValue.uint32 hostBrokerID)]
  let r := Call "Plugin.Initialize" args
  r.err

/-- The stub `RPCClient.Cleanup`. -/
def RPCClient.Cleanup (Call : String → GoValue → CallResult (Option GoError)) :
    Option GoError :=
  (Call "Plugin.Cleanup" GoValue.nil).err

/-- The stub `RPCClient.GetCommands`. -/
def RPCClient.GetCommands (Call : String → GoValue → CallResult (List CommandSpec)) :
    List CommandSpec :=
  let r := Call "Plugin.GetCommands" GoValue.nil
  match r.err with
  | some _ => []
  | none => r.resp

/-- The stub `RPCClient.GetMajorModes`; the struct `pluginsdk.MajorModeSpec`
is a parameter. -/
def RPCClient.GetMajorModes {MajorModeSpec : Type}
    (Call : String → GoValue → CallResult (List MajorModeSpec)) : List MajorModeSpec :=
  let r := Call "Plugin.GetMajorModes" GoValue.nil
  match r.err with
  | some _ => []
  | none => r.resp

/-- The stub `RPCClient.GetMinorModes`; the struct `pluginsdk.MinorModeSpec`
is a parameter. -/
def RPCClient.GetMinorModes {MinorModeSpec : Type}
    (Call : String → GoValue → CallResult (List MinorModeSpec)) : List MinorModeSpec :=
  let r := Call "Plugin.GetMinorModes" GoValue.nil
  match r.err with
  | some _ => []
  | none => r.resp

/-- The stub `RPCClient.GetKeyBindings`; the struct `pluginsdk.KeyBindingSpec`
is a parameter. -/
def RPCClient.GetKeyBindings {KeyBindingSpec : Type}
    (Call : String → GoValue → CallResult (List KeyBindingSpec)) : List KeyBindingSpec :=
  let r := Call "Plugin.GetKeyBindings" GoValue.nil
  match r.err with
  | some _ => []
  | none => r.resp

/-! ## Host side of the callback channel: `RPCHostServer`, and the plugin-side
`RPCHostClient` and `RPCBufferProxy` -/

/-- The method `RPCBufferProxy.Name`. -/
def RPCBufferProxy.Name (b : RPCBufferProxy) : String := b.info.Name

/-- The method `RPCBufferProxy.Content`. -/
def RPCBufferProxy.Content (b : RPCBufferProxy) : String := b.info.Content

/-- The method `RPCBufferProxy.CursorPosition`. -/
def RPCBufferProxy.CursorPosition (b : RPCBufferProxy) : Int := b.info.Position

/-- The method `RPCBufferProxy.IsDirty`. -/
def RPCBufferProxy.IsDirty (b : RPCBufferProxy) : Bool := b.info.IsDirty

/-- The method `RPCBufferProxy.Filename`. -/
def RPCBufferProxy.Filename (b : RPCBufferProxy) : String := b.info.Filename

/-- The method `RPCBufferProxy.SetContent`: updates the local snapshot. -/
def RPCBufferProxy.SetContent (b : RPCBufferProxy) (content : String) : RPCBufferProxy :=
  { b with info := { b.info with Content := content } }

/-- The method `RPCBufferProxy.InsertAt`: its body is empty. -/
def RPCBufferProxy.InsertAt (b : RPCBufferProxy) (_pos : Int) (_text : String) :
    RPCBufferProxy :=
  b

/-- The method `RPCBufferProxy.DeleteRange`: its body is empty. -/
def RPCBufferProxy.DeleteRange (b : RPCBufferProxy) (_start _end : Int) : RPCBufferProxy :=
  b

/-- The method `RPCBufferProxy.SetCursorPosition`: updates the local snapshot. -/
def RPCBufferProxy.SetCursorPosition (b : RPCBufferProxy) (pos : Int) : RPCBufferProxy :=
  { b with info := { b.info with Position := pos } }

/-- The method `RPCBufferProxy.MarkDirty`: updates the local snapshot. -/
def RPCBufferProxy.MarkDirty (b : RPCBufferProxy) : RPCBufferProxy :=
  { b with info := { b.info with IsDirty := true } }

/-- The stub `RPCHostClient.GetCurrentBuffer`; `Call` is `h.client.Call`. -/
def RPCHostClient.GetCurrentBuffer (Call : String → GoValue → CallResult BufferInfo) :
    Option RPCBufferProxy :=
  let r := Call "Host.GetCurrentBuffer" GoValue.nil
  match r.err with
  | some _ => none
  | none => some ⟨r.resp⟩

/-- The stub `RPCHostClient.CreateBuffer`. -/
def RPCHostClient.CreateBuffer (Call : String → String → CallResult BufferInfo)
    (name : String) : Option RPCBufferProxy :=
  let r := Call "Host.CreateBuffer" name
  match r.err with
  | some _ => none
  | none => some ⟨r.resp⟩

/-- The stub `RPCHostClient.FindBuffer`. -/
def RPCHostClient.FindBuffer (Call : String → String → CallResult BufferInfo)
    (name : String) : Option RPCBufferProxy :=
  let r := Call "Host.FindBuffer" name
  match r.err with
  | some _ => none
  | none => if r.resp.Name = "" then none else some ⟨r.resp⟩

/-- The stub `RPCHostClient.SwitchToBuffer`. -/
def RPCHostClient.SwitchToBuffer (Call : String → String → CallResult (Option GoError))
    (name : String) : Option GoError :=
  let r := Call "Host.SwitchToBuffer" name
  match r.err with
  | some err => fmt.Errorf ("RPC call failed: " ++ err.Error)
  | none => r.resp

/-- The struct `RPCHostServer`. -/
structure RPCHostServer (σ : Type) where
  Impl : HostInterface σ

/-- The snapshot the handlers of `RPCHostServer` build from a host buffer. -/
def BufferInterface.toBufferInfo (buffer : BufferInterface σ) (s : σ) : BufferInfo :=
  { Name := buffer.Name s
    Content := buffer.Content s
    Position := buffer.CursorPosition s
    IsDirty := buffer.IsDirty s
    Filename := buffer.Filename s }

/-- The handler `RPCHostServer.CreateBuffer`. -/
def RPCHostServer.CreateBuffer (h : RPCHostServer σ) (name : String) (s : σ) :
    CallResult BufferInfo × σ :=
  let r := h.Impl.CreateBuffer name s
  match r.1 with
  | none => (⟨{}, fmt.Errorf "failed to create buffer"⟩, r.2)
  | some buffer => (⟨buffer.toBufferInfo r.2, none⟩, r.2)

/-- The handler `RPCHostServer.FindBuffer`. -/
def RPCHostServer.FindBuffer (h : RPCHostServer σ) (name : String) (s : σ) :
    CallResult BufferInfo × σ :=
  let r := h.Impl.FindBuffer name s
  match r.1 with
  | none => (⟨{}, none⟩, r.2)
  | some buffer => (⟨buffer.toBufferInfo r.2, none⟩, r.2)

/-- The handler `RPCHostServer.GetCurrentBuffer`. -/
def RPCHostServer.GetCurrentBuffer (h : RPCHostServer σ) (_args : GoValue) (s : σ) :
    CallResult BufferInfo × σ :=
  let r := h.Impl.GetCurrentBuffer s
  match r.1 with
  | none => (⟨{}, fmt.Errorf "no current buffer"⟩, r.2)
  | some buffer => (⟨buffer.toBufferInfo r.2, none⟩, r.2)

/-- The handler `RPCHostServer.SwitchToBuffer`. -/
def RPCHostServer.SwitchToBuffer (h : RPCHostServer σ) (name : String) (s : σ) :
    CallResult (Option GoError) × σ :=
  let r := h.Impl.SwitchToBuffer name s
  (⟨r.1, none⟩, r.2)

/-! ## The transport

`client.Call` runs the handler registered under the method name; a method name
no handler is registered under gives an error. A reply that is a struct of
plain fields (`BufferInfo`) is delivered as the handler wrote it. A reply of
type `error` goes through gob as an interface value: the nil error is
delivered, a non-nil one is not, since the dynamic type of the errors of this
program (made by `fmt.Errorf`) is not registered with gob.
-/

/-- What `net/rpc` over gob makes of the outcome of a handler whose reply has
type `error`. An error returned by the handler becomes the error of the call
and no reply is delivered. A non-nil reply cannot be encoded: the server shuts
the connection and the call fails with the transport's error `transportErr`
(`reading body EOF` on the client), the reply variable staying nil. A nil
reply is delivered with a nil error. -/
def rpc.gobDeliver (transportErr : GoError) (handled : CallResult (Option GoError)) :
    CallResult (Option GoError) :=
  match handled.err with
  | some err => ⟨none, some err⟩
  | none =>
    match handled.resp with
    | some _ => ⟨none, some transportErr⟩
    | none => ⟨none, none⟩

/-- The call `client.Call(method, args, &resp)` on the primary channel served
by `s` in state `st`, for the methods with a map argument and an `error`
reply; `transportErr` is the error of a call whose reply cannot be encoded. -/
def RPCServer.Call (s : RPCServer Conn ρ) (transportErr : GoError) (st : ρ) (method : String)
    (args : GoMap) : CallResult (Option GoError) :=
  if method = "Plugin.Initialize" then rpc.gobDeliver transportErr (s.Initialize args st).1
  else ⟨none, fmt.Errorf ("rpc: can't find method " ++ method)⟩

/-- A transport that is not the program's: it hands the caller the reply value
the handler wrote and the error the handler returned, as they are, also when
the reply is a non-nil `error`. -/
def RPCServer.CallDelivering (s : RPCServer Conn ρ) (st : ρ) (method : String)
    (args : GoMap) : CallResult (Option GoError) :=
  if method = "Plugin.Initialize" then (s.Initialize args st).1
  else ⟨none, fmt.Errorf ("rpc: can't find method " ++ method)⟩

/-- The call `client.Call(method, name, &resp)` on the callback channel served
by `h` in state `s`, for the methods with a string argument and a `BufferInfo`
reply. -/
def RPCHostServer.Call (h : RPCHostServer σ) (s : σ) (method : String) (name : String) :
    CallResult BufferInfo :=
  if method = "Host.FindBuffer" then (h.FindBuffer name s).1
  else if method = "Host.CreateBuffer" then (h.CreateBuffer name s).1
  else ⟨{}, fmt.Errorf ("rpc: can't find method " ++ method)⟩

/-! ## Concrete hosts and servers, for evaluating the code -/

/-- A buffer of the sample host. -/
structure SampleBuffer where
  name : String
  content : String
  pos : Int
  dirty : Bool
  file : String
deriving DecidableEq, Repr

/-- The buffer of that name in a state of the sample host, if any. -/
def sampleLookup (name : String) (s : List SampleBuffer) : Option SampleBuffer :=
  s.find? (fun b => b.name = name)

/-- The buffer object the sample host hands out for the buffer called `name`. -/
def sampleHandle (name : String) : BufferInterface (List SampleBuffer) where
  Name := fun _ => name
  Content := fun s => ((sampleLookup name s).map (fun b => b.content)).getD ""
  CursorPosition := fun s => ((sampleLookup name s).map (fun b => b.pos)).getD 0
  IsDirty := fun s => ((sampleLookup name s).map (fun b => b.dirty)).getD false
  Filename := fun s => ((sampleLookup name s).map (fun b => b.file)).getD ""
  SetContent := fun content s =>
    s.map (fun b => if b.name = name then { b with content := content } else b)

/-- A small in-process host: its state is the list of its buffers, the head
being the current one. -/
def sampleHost : HostInterface (List SampleBuffer) where
  GetCurrentBuffer := fun s => (s.head?.map (fun b => sampleHandle b.name), s)
  FindBuffer := fun name s => ((sampleLookup name s).map (fun b => sampleHandle b.name), s)
  CreateBuffer := fun name s => (some (sampleHandle name), s ++ [⟨name, "", 0, false, ""⟩])
  SwitchToBuffer := fun name s =>
    match sampleLookup name s with
    | some b => (none, b :: s.filter (fun b => b.name ≠ name))
    | none => (fmt.Errorf ("no such buffer: " ++ name), s)
  OpenFile := fun _ s => (none, s)
  SaveBuffer := fun _ s => (none, s)
  SetStatus := fun _ s => s

/-- A state of the sample host with two buffers. -/
def sampleState : List SampleBuffer :=
  [⟨"notes", "alpha\nbeta", 3, true, "/tmp/notes.txt"⟩, ⟨"draft", "alpha\ngamma", 0, false, ""⟩]

/-- A host whose current buffer, called `ghost`, is not among the buffers it
finds by name. -/
def orphanHost : HostInterface Unit where
  GetCurrentBuffer := fun s =>
    (some ⟨fun _ => "ghost", fun _ => "", fun _ => 0, fun _ => false, fun _ => "",
      fun _ s => s⟩, s)
  FindBuffer := fun _ s => (none, s)
  CreateBuffer := fun _ s => (none, s)
  SwitchToBuffer := fun _ s => (none, s)
  OpenFile := fun _ s => (none, s)
  SaveBuffer := fun _ s => (none, s)
  SetStatus := fun _ s => s

/-- The value `pluginInstance` as the `Impl` of an `RPCServer`. The state of
the plugin process is the plugin struct and the world it runs against;
`toHost` is the behaviour of the methods of the `RPCHostClient` that
`Initialize` receives. The dynamic type `*BufferDiffPlugin` has the method
`ExecuteCommand`. -/
def BufferDiffPlugin.asPlugin (toHost : RPCHostClient Conn → HostInterface σ) :
    Plugin Conn (BufferDiffPlugin σ × World σ) where
  Initialize := fun hostClient st =>
    ((st.1.Initialize (some (toHost hostClient))).1,
      ((st.1.Initialize (some (toHost hostClient))).2, st.2))
  ExecuteCommand := some (fun name args st =>
    ((st.1.ExecuteCommand name args st.2).1, (st.1, (st.1.ExecuteCommand name args st.2).2)))

/-- A buffer proxy as `RPCHostClient.FindBuffer` builds it from a reply. -/
def sampleProxy : RPCBufferProxy :=
  ⟨{ Name := "notes", Content := "hello", Position := 2, IsDirty := false,
     Filename := "/tmp/notes.txt" }⟩

/-! ## Theorems -/

/-- The handler `RPCServer.Initialize` returns a nil error on every path: a
failure is written to its reply. -/
theorem RPCServer.Initialize_err (s : RPCServer Conn ρ) (args : GoMap) (st : ρ) :
    (s.Initialize args st).1.err = none := by
  unfold RPCServer.Initialize
  dsimp only
  split
  · rfl
  · split <;> rfl

/-- If the reply and the error of the handler were handed over as they are,
`RPCClient.Initialize` would return nil for every server and every state of
the plugin process. -/
theorem RPCClient.Initialize_delivering (s : RPCServer Conn ρ) (st : ρ) (hostBrokerID : Nat) :
    RPCClient.Initialize hostBrokerID (s.CallDelivering st) = none := by
  simp [RPCClient.Initialize, RPCServer.CallDelivering, RPCServer.Initialize_err]

/-- The reply of `RPCHostServer.FindBuffer` when the host finds no buffer. -/
theorem RPCHostServer.FindBuffer_of_none (h : RPCHostServer σ) (n : String) (s : σ)
    (hnone : (h.Impl.FindBuffer n s).1 = none) :
    (h.FindBuffer n s).1.resp = {} ∧ (h.FindBuffer n s).1.err = none := by
  simp [RPCHostServer.FindBuffer, hnone]

/-- The reply of `RPCHostServer.FindBuffer` when the host finds the buffer `b`. -/
theorem RPCHostServer.FindBuffer_of_some (h : RPCHostServer σ) (n : String) (s : σ)
    (b : BufferInterface σ) (hsome : (h.Impl.FindBuffer n s).1 = some b) :
    (h.FindBuffer n s).1.resp = b.toBufferInfo (h.Impl.FindBuffer n s).2
      ∧ (h.FindBuffer n s).1.err = none := by
  simp [RPCHostServer.FindBuffer, hsome]

/-- The reply of `RPCHostServer.GetCurrentBuffer` when the host has no current
buffer. -/
theorem RPCHostServer.GetCurrentBuffer_of_none (h : RPCHostServer σ) (args : GoValue) (s : σ)
    (hnone : (h.Impl.GetCurrentBuffer s).1 = none) :
    (h.GetCurrentBuffer args s).1.resp = {}
      ∧ (h.GetCurrentBuffer args s).1.err = some ⟨"no current buffer"⟩ := by
  simp [RPCHostServer.GetCurrentBuffer, hnone, fmt.Errorf]

/-- The stub `RPCHostClient.FindBuffer` on a successful call. -/
theorem RPCHostClient.FindBuffer_of_ok (Call : String → String → CallResult BufferInfo)
    (name : String) (hok : (Call "Host.FindBuffer" name).err = none) :
    RPCHostClient.FindBuffer Call name =
      if (Call "Host.FindBuffer" name).resp.Name = "" then none
      else some ⟨(Call "Host.FindBuffer" name).resp⟩ := by
  simp [RPCHostClient.FindBuffer, hok]

/-- C2: when the host's `FindBuffer(n)` returns no buffer,
`RPCHostServer.FindBuffer` replies with an empty-name `BufferInfo` and a nil
error, and `RPCHostClient.FindBuffer` over that reply returns a nil handle. -/
theorem FindBuffer_missing_gives_nil (h : RPCHostServer σ) (n : String) (s : σ)
    (hnone : (h.Impl.FindBuffer n s).1 = none) :
    (h.FindBuffer n s).1.resp.Name = "" ∧ (h.FindBuffer n s).1.err = none
      ∧ RPCHostClient.FindBuffer (h.Call s) n = none := by
  obtain ⟨hresp, herr⟩ := RPCHostServer.FindBuffer_of_none h n s hnone
  refine ⟨by rw [hresp], herr, ?_⟩
  have hcall : h.Call s "Host.FindBuffer" n = (h.FindBuffer n s).1 := by
    simp [RPCHostServer.Call]
  rw [RPCHostClient.FindBuffer_of_ok _ _ (by rw [hcall]; exact herr), hcall, hresp]
  rfl

/-- C2 at the name `nonexistent-buffer-xyz` on the sample host. -/
theorem FindBuffer_missing_gives_nil_witness :
    (sampleHost.FindBuffer "nonexistent-buffer-xyz" sampleState).1 = none
      ∧ RPCHostClient.FindBuffer ((⟨sampleHost⟩ : RPCHostServer _).Call sampleState)
          "nonexistent-buffer-xyz" = none :=
  ⟨rfl,
    (FindBuffer_missing_gives_nil ⟨sampleHost⟩ "nonexistent-buffer-xyz" sampleState
      rfl).2.2⟩

/-- C3: when the host's `FindBuffer(n)` returns a buffer `b` whose name is not
empty, `RPCHostClient.FindBuffer` over the reply of `RPCHostServer.FindBuffer`
returns a handle whose `Name`, `Content`, `CursorPosition`, `IsDirty` and
`Filename` are those of `b` (read in the host state the lookup left). -/
theorem FindBuffer_round_trip (h : RPCHostServer σ) (n : String) (s : σ)
    (b : BufferInterface σ) (hsome : (h.Impl.FindBuffer n s).1 = some b)
    (hname : b.Name (h.Impl.FindBuffer n s).2 ≠ "") :
    ∃ proxy : RPCBufferProxy,
      RPCHostClient.FindBuffer (h.Call s) n = some proxy
        ∧ proxy.Name = b.Name (h.Impl.FindBuffer n s).2
        ∧ proxy.Content = b.Content (h.Impl.FindBuffer n s).2
        ∧ proxy.CursorPosition = b.CursorPosition (h.Impl.FindBuffer n s).2
        ∧ proxy.IsDirty = b.IsDirty (h.Impl.FindBuffer n s).2
        ∧ proxy.Filename = b.Filename (h.Impl.FindBuffer n s).2 := by
  obtain ⟨hresp, herr⟩ := RPCHostServer.FindBuffer_of_some h n s b hsome
  have hcall : h.Call s "Host.FindBuffer" n = (h.FindBuffer n s).1 := by
    simp [RPCHostServer.Call]
  refine ⟨⟨b.toBufferInfo (h.Impl.FindBuffer n s).2⟩, ?_, rfl, rfl, rfl, rfl, rfl⟩
  rw [RPCHostClient.FindBuffer_of_ok _ _ (by rw [hcall]; exact herr), hcall, hresp]
  simp [BufferInterface.toBufferInfo, hname]

/-- C3 at the buffer `notes` of the sample host. -/
theorem FindBuffer_round_trip_witness :
    ∃ proxy : RPCBufferProxy,
      RPCHostClient.FindBuffer ((⟨sampleHost⟩ : RPCHostServer _).Call sampleState) "notes"
          = some proxy
        ∧ proxy.Name = "notes"
        ∧ proxy.Content = "alpha\nbeta"
        ∧ proxy.CursorPosition = 3
        ∧ proxy.IsDirty = true
        ∧ proxy.Filename = "/tmp/notes.txt" :=
  FindBuffer_round_trip ⟨sampleHost⟩ "notes" sampleState (sampleHandle "notes")
    rfl (by decide)

/-- C4 fails as stated: on the sample host with no buffer at all,
`GetCurrentBuffer` returns no buffer, and `RPCHostServer.GetCurrentBuffer` does
not return a nil error. -/
theorem GetCurrentBuffer_missing_not_nil_error :
    ¬ ((sampleHost.GetCurrentBuffer []).1 = none →
        ((⟨sampleHost⟩ : RPCHostServer _).GetCurrentBuffer GoValue.nil []).1.err = none
          ∧ ((⟨sampleHost⟩ : RPCHostServer _).GetCurrentBuffer GoValue.nil []).1.resp.Name
              = "") := by
  intro hall
  have herr := (hall rfl).1
  revert herr
  decide

/-- C4, amended: `RPCHostServer.FindBuffer` encodes a buffer the host does not
find as an empty-name `BufferInfo` with a nil error; `RPCHostServer.GetCurrentBuffer`,
when the host has no current buffer, writes an empty-name `BufferInfo` and
returns the error `no current buffer`. -/
theorem not_found_encoding (h : RPCHostServer σ) (n : String) (args : GoValue) (s : σ) :
    ((h.Impl.FindBuffer n s).1 = none →
        (h.FindBuffer n s).1.resp.Name = "" ∧ (h.FindBuffer n s).1.err = none)
      ∧ ((h.Impl.GetCurrentBuffer s).1 = none →
        (h.GetCurrentBuffer args s).1.resp.Name = ""
          ∧ (h.GetCurrentBuffer args s).1.err = some ⟨"no current buffer"⟩) := by
  constructor
  · intro hnone
    obtain ⟨hresp, herr⟩ := RPCHostServer.FindBuffer_of_none h n s hnone
    exact ⟨by rw [hresp], herr⟩
  · intro hnone
    obtain ⟨hresp, herr⟩ := RPCHostServer.GetCurrentBuffer_of_none h args s hnone
    exact ⟨by rw [hresp], herr⟩

/-- C4, amended, on the sample host with no buffer at all. -/
theorem not_found_encoding_witness :
    ((sampleHost.FindBuffer "scratch" []).1 = none
        ∧ (sampleHost.GetCurrentBuffer []).1 = none)
      ∧ (((⟨sampleHost⟩ : RPCHostServer _).FindBuffer "scratch" []).1.resp.Name = ""
        ∧ ((⟨sampleHost⟩ : RPCHostServer _).FindBuffer "scratch" []).1.err = none)
      ∧ (((⟨sampleHost⟩ : RPCHostServer _).GetCurrentBuffer GoValue.nil []).1.resp.Name = ""
        ∧ ((⟨sampleHost⟩ : RPCHostServer _).GetCurrentBuffer GoValue.nil []).1.err
            = some ⟨"no current buffer"⟩) :=
  ⟨⟨rfl, rfl⟩,
    (not_found_encoding ⟨sampleHost⟩ "scratch" GoValue.nil []).1 rfl,
    (not_found_encoding ⟨sampleHost⟩ "scratch" GoValue.nil []).2 rfl⟩

/-- C5 fails as stated: when the call succeeds with the zero `BufferInfo`,
whose `Name` is empty, `RPCHostClient.GetCurrentBuffer` and
`RPCHostClient.CreateBuffer` return a buffer proxy, not a nil result. -/
theorem GetCurrentBuffer_empty_name_gives_proxy :
    ¬ ((⟨{}, none⟩ : CallResult BufferInfo).err = none
          ∧ (⟨{}, none⟩ : CallResult BufferInfo).resp.Name = "" →
        RPCHostClient.GetCurrentBuffer (fun _ _ => ⟨{}, none⟩) = none)
      ∧ ¬ ((⟨{}, none⟩ : CallResult BufferInfo).err = none
          ∧ (⟨{}, none⟩ : CallResult BufferInfo).resp.Name = "" →
        RPCHostClient.CreateBuffer (fun _ _ => ⟨{}, none⟩) "scratch" = none) := by
  decide

/-- C5, amended: `RPCHostClient.FindBuffer` returns a nil result whenever the
call succeeds with a `BufferInfo` whose `Name` is empty;
`RPCHostClient.GetCurrentBuffer` and `RPCHostClient.CreateBuffer` return a nil
result when the call returns an error, and when it succeeds they return a
buffer proxy holding the reply, whatever its `Name`. -/
theorem buffer_stub_results (CallNil : String → GoValue → CallResult BufferInfo)
    (Call : String → String → CallResult BufferInfo) (name : String) :
    ((Call "Host.FindBuffer" name).err = none →
        (Call "Host.FindBuffer" name).resp.Name = "" →
        RPCHostClient.FindBuffer Call name = none)
      ∧ ((CallNil "Host.GetCurrentBuffer" GoValue.nil).err ≠ none →
        RPCHostClient.GetCurrentBuffer CallNil = none)
      ∧ ((CallNil "Host.GetCurrentBuffer" GoValue.nil).err = none →
        RPCHostClient.GetCurrentBuffer CallNil
          = some ⟨(CallNil "Host.GetCurrentBuffer" GoValue.nil).resp⟩)
      ∧ ((Call "Host.CreateBuffer" name).err ≠ none →
        RPCHostClient.CreateBuffer Call name = none)
      ∧ ((Call "Host.CreateBuffer" name).err = none →
        RPCHostClient.CreateBuffer Call name = some ⟨(Call "Host.CreateBuffer" name).resp⟩) := by
  refine ⟨?_, ?_, ?_, ?_, ?_⟩
  · intro hok hempty
    rw [RPCHostClient.FindBuffer_of_ok Call name hok, if_pos hempty]
  · intro herr
    unfold RPCHostClient.GetCurrentBuffer
    cases hr : (CallNil "Host.GetCurrentBuffer" GoValue.nil).err with
    | none => exact absurd hr herr
    | some e => simp [hr]
  · intro hok
    simp [RPCHostClient.GetCurrentBuffer, hok]
  · intro herr
    unfold RPCHostClient.CreateBuffer
    cases hr : (Call "Host.CreateBuffer" name).err with
    | none => exact absurd hr herr
    | some e => simp [hr]
  · intro hok
    simp [RPCHostClient.CreateBuffer, hok]

/-- C5, amended, at a transport that answers every call with the zero
`BufferInfo`, and at one that fails every call. -/
theorem buffer_stub_results_witness :
    RPCHostClient.FindBuffer (fun _ _ => ⟨{}, none⟩) "scratch" = none
      ∧ RPCHostClient.GetCurrentBuffer (fun _ _ => ⟨{}, fmt.Errorf "connection is shut down"⟩)
          = none
      ∧ RPCHostClient.GetCurrentBuffer (fun _ _ => ⟨{}, none⟩) = some ⟨{}⟩
      ∧ RPCHostClient.CreateBuffer (fun _ _ => ⟨{}, fmt.Errorf "connection is shut down"⟩)
          "scratch" = none
      ∧ RPCHostClient.CreateBuffer (fun _ _ => ⟨{}, none⟩) "scratch" = some ⟨{}⟩ :=
  ⟨(buffer_stub_results (fun _ _ => ⟨{}, none⟩) (fun _ _ => ⟨{}, none⟩) "scratch").1 rfl rfl,
    (buffer_stub_results (fun _ _ => ⟨{}, fmt.Errorf "connection is shut down"⟩)
      (fun _ _ => ⟨{}, none⟩) "scratch").2.1 (by decide),
    (buffer_stub_results (fun _ _ => ⟨{}, none⟩) (fun _ _ => ⟨{}, none⟩) "scratch").2.2.1 rfl,
    (buffer_stub_results (fun _ _ => ⟨{}, none⟩)
      (fun _ _ => ⟨{}, fmt.Errorf "connection is shut down"⟩) "scratch").2.2.2.1 (by decide),
    (buffer_stub_results (fun _ _ => ⟨{}, none⟩) (fun _ _ => ⟨{}, none⟩) "scratch").2.2.2.2 rfl⟩

/-- C6: each value-returning stub of `RPCClient` returns the zero value of its
result type when `client.Call` returns an error, whatever the reply variable
holds, and returns the reply unchanged when `client.Call` returns nil. -/
theorem RPCClient_stub_results {MajorModeSpec MinorModeSpec KeyBindingSpec : Type}
    (CallStr : String → GoValue → CallResult String)
    (CallCmd : String → GoValue → CallResult (List CommandSpec))
    (CallMajor : String → GoValue → CallResult (List MajorModeSpec))
    (CallMinor : String → GoValue → CallResult (List MinorModeSpec))
    (CallKey : String → GoValue → CallResult (List KeyBindingSpec)) :
    (((CallStr "Plugin.Name" GoValue.nil).err ≠ none → RPCClient.Name CallStr = "")
      ∧ ((CallStr "Plugin.Name" GoValue.nil).err = none →
          RPCClient.Name CallStr = (CallStr "Plugin.Name" GoValue.nil).resp))
    ∧ (((CallStr "Plugin.Version" GoValue.nil).err ≠ none → RPCClient.Version CallStr = "")
      ∧ ((CallStr "Plugin.Version" GoValue.nil).err = none →
          RPCClient.Version CallStr = (CallStr "Plugin.Version" GoValue.nil).resp))
    ∧ (((CallStr "Plugin.Description" GoValue.nil).err ≠ none →
          RPCClient.Description CallStr = "")
      ∧ ((CallStr "Plugin.Description" GoValue.nil).err = none →
          RPCClient.Description CallStr = (CallStr "Plugin.Description" GoValue.nil).resp))
    ∧ (((CallCmd "Plugin.GetCommands" GoValue.nil).err ≠ none →
          RPCClient.GetCommands CallCmd = [])
      ∧ ((CallCmd "Plugin.GetCommands" GoValue.nil).err = none →
          RPCClient.GetCommands CallCmd = (CallCmd "Plugin.GetCommands" GoValue.nil).resp))
    ∧ (((CallMajor "Plugin.GetMajorModes" GoValue.nil).err ≠ none →
          RPCClient.GetMajorModes CallMajor = [])
      ∧ ((CallMajor "Plugin.GetMajorModes" GoValue.nil).err = none →
          RPCClient.GetMajorModes CallMajor
            = (CallMajor "Plugin.GetMajorModes" GoValue.nil).resp))
    ∧ (((CallMinor "Plugin.GetMinorModes" GoValue.nil).err ≠ none →
          RPCClient.GetMinorModes CallMinor = [])
      ∧ ((CallMinor "Plugin.GetMinorModes" GoValue.nil).err = none →
          RPCClient.GetMinorModes CallMinor
            = (CallMinor "Plugin.GetMinorModes" GoValue.nil).resp))
    ∧ (((CallKey "Plugin.GetKeyBindings" GoValue.nil).err ≠ none →
          RPCClient.GetKeyBindings CallKey = [])
      ∧ ((CallKey "Plugin.GetKeyBindings" GoValue.nil).err = none →
          RPCClient.GetKeyBindings CallKey
            = (CallKey "Plugin.GetKeyBindings" GoValue.nil).resp)) := by
  refine ⟨⟨?_, ?_⟩, ⟨?_, ?_⟩, ⟨?_, ?_⟩, ⟨?_, ?_⟩, ⟨?_, ?_⟩, ⟨?_, ?_⟩, ⟨?_, ?_⟩⟩
  · intro herr
    cases hr : (CallStr "Plugin.Name" GoValue.nil).err with
    | none => exact absurd hr herr
    | some e => simp [RPCClient.Name, hr]
  · intro hok
    simp [RPCClient.Name, hok]
  · intro herr
    cases hr : (CallStr "Plugin.Version" GoValue.nil).err with
    | none => exact absurd hr herr
    | some e => simp [RPCClient.Version, hr]
  · intro hok
    simp [RPCClient.Version, hok]
  · intro herr
    cases hr : (CallStr "Plugin.Description" GoValue.nil).err with
    | none => exact absurd hr herr
    | some e => simp [RPCClient.Description, hr]
  · intro hok
    simp [RPCClient.Description, hok]
  · intro herr
    cases hr : (CallCmd "Plugin.GetCommands" GoValue.nil).err with
    | none => exact absurd hr herr
    | some e => simp [RPCClient.GetCommands, hr]
  · intro hok
    simp [RPCClient.GetCommands, hok]
  · intro herr
    cases hr : (CallMajor "Plugin.GetMajorModes" GoValue.nil).err with
    | none => exact absurd hr herr
    | some e => simp [RPCClient.GetMajorModes, hr]
  · intro hok
    simp [RPCClient.GetMajorModes, hok]
  · intro herr
    cases hr : (CallMinor "Plugin.GetMinorModes" GoValue.nil).err with
    | none => exact absurd hr herr
    | some e => simp [RPCClient.GetMinorModes, hr]
  · intro hok
    simp [RPCClient.GetMinorModes, hok]
  · intro herr
    cases hr : (CallKey "Plugin.GetKeyBindings" GoValue.nil).err with
    | none => exact absurd hr herr
    | some e => simp [RPCClient.GetKeyBindings, hr]
  · intro hok
    simp [RPCClient.GetKeyBindings, hok]

/-- C6 at a transport that fails with a stale reply left in the variable
(`Name`, `GetCommands`), and at one that succeeds (`Version`). -/
theorem RPCClient_stub_results_witness :
    RPCClient.Name (fun _ _ => ⟨"stale", fmt.Errorf "connection is shut down"⟩) = ""
      ∧ RPCClient.Version (fun _ _ => ⟨"1.0.0", none⟩) = "1.0.0"
      ∧ RPCClient.GetCommands
          (fun _ _ => ⟨[⟨"stale", "", false, "", []⟩], fmt.Errorf "connection is shut down"⟩)
          = [] :=
  ⟨(RPCClient_stub_results (fun _ _ => ⟨"stale", fmt.Errorf "connection is shut down"⟩)
      (fun _ _ => ⟨[], none⟩) (fun _ _ => ⟨([] : List Unit), none⟩)
      (fun _ _ => ⟨([] : List Unit), none⟩) (fun _ _ => ⟨([] : List Unit), none⟩)).1.1
      (by decide),
    (RPCClient_stub_results (fun _ _ => ⟨"1.0.0", none⟩)
      (fun _ _ => ⟨[], none⟩) (fun _ _ => ⟨([] : List Unit), none⟩)
      (fun _ _ => ⟨([] : List Unit), none⟩) (fun _ _ => ⟨([] : List Unit), none⟩)).2.1.2 rfl,
    (RPCClient_stub_results (fun _ _ => ⟨"", none⟩)
      (fun _ _ => ⟨[⟨"stale", "", false, "", []⟩], fmt.Errorf "connection is shut down"⟩)
      (fun _ _ => ⟨([] : List Unit), none⟩)
      (fun _ _ => ⟨([] : List Unit), none⟩) (fun _ _ => ⟨([] : List Unit), none⟩)).2.2.2.1.1
      (by decide)⟩

/-- C7: whatever the state of the plugin, `GetCommands` returns exactly two
descriptors, in this order: `buffer-diff` with the prompts `Compare buffer: `,
`With buffer: `, then `buffer-diff-current` with the prompt
`Compare current buffer with: `. -/
theorem GetCommands_descriptors (p : BufferDiffPlugin σ) :
    p.GetCommands.length = 2
      ∧ p.GetCommands.map (fun c => (c.Name, c.ArgPrompts))
          = [("buffer-diff", ["Compare buffer: ", "With buffer: "]),
             ("buffer-diff-current", ["Compare current buffer with: "])] :=
  ⟨rfl, rfl⟩

/-- The type assertion `v.(string)` succeeds exactly on the strings. -/
theorem GoValue.assertString_ok (v : GoValue) :
    v.assertString.2 = true ↔ ∃ a, v = GoValue.str a := by
  cases v <;> simp [GoValue.assertString]

/-- C8: whatever the state of the plugin, when the argument list has fewer
than two elements or its first two elements are not both strings,
`ExecuteCommand("buffer-diff", args...)` returns the error
`PLUGIN_MESSAGE:buffer-diff requires 2 buffer names` and leaves the world as it
was: the host state and the trace of host calls are unchanged, so no host
method has been called. -/
theorem ExecuteCommand_buffer_diff_bad_args (p : BufferDiffPlugin σ) (args : List GoValue)
    (w : World σ)
    (hargs : args.length < 2 ∨
      ¬ ∃ a b rest, args = GoValue.str a :: GoValue.str b :: rest) :
    p.ExecuteCommand "buffer-diff" args w
      = (some ⟨"PLUGIN_MESSAGE:buffer-diff requires 2 buffer names"⟩, w) := by
  have hcond : ¬ (args.length ≥ 2 ∧
      (GoValue.index args 0).assertString.2 ∧ (GoValue.index args 1).assertString.2) := by
    rintro ⟨hlen, h0, h1⟩
    rcases args with _ | ⟨x, _ | ⟨y, rest⟩⟩
    · simp at hlen
    · simp at hlen
    · obtain ⟨a, ha⟩ := (GoValue.assertString_ok _).1 h0
      obtain ⟨b, hb⟩ := (GoValue.assertString_ok _).1 h1
      simp only [GoValue.index, List.getD_cons_zero, List.getD_cons_succ] at ha hb
      rcases hargs with hlt | hne
      · simp only [List.length_cons] at hlt
        omega
      · exact hne ⟨a, b, rest, by rw [ha, hb]⟩
  unfold BufferDiffPlugin.ExecuteCommand
  rw [if_pos rfl, if_neg hcond]
  rfl

/-- C8 at the empty argument list, and at a list whose second element is an
integer, on a plugin initialized with the sample host. -/
theorem ExecuteCommand_buffer_diff_bad_args_witness :
    (BufferDiffPlugin.mk (some sampleHost)).ExecuteCommand "buffer-diff" [] ⟨sampleState, []⟩
        = (some ⟨"PLUGIN_MESSAGE:buffer-diff requires 2 buffer names"⟩, ⟨sampleState, []⟩)
      ∧ (BufferDiffPlugin.mk (some sampleHost)).ExecuteCommand "buffer-diff"
          [GoValue.str "notes", GoValue.int 7] ⟨sampleState, []⟩
        = (some ⟨"PLUGIN_MESSAGE:buffer-diff requires 2 buffer names"⟩, ⟨sampleState, []⟩) :=
  ⟨ExecuteCommand_buffer_diff_bad_args _ [] _ (Or.inl (by decide)),
    ExecuteCommand_buffer_diff_bad_args _ [GoValue.str "notes", GoValue.int 7] _
      (Or.inr (by rintro ⟨a, b, rest, h⟩; simp at h))⟩

/-- C9: whatever the state of the plugin, when the argument list is empty or
its first element is not a string, `ExecuteCommand("buffer-diff-current",
args...)` returns the error
`PLUGIN_MESSAGE:buffer-diff-current requires 1 buffer name` and leaves the
world as it was: the host state and the trace of host calls are unchanged, so
no host method has been called. -/
theorem ExecuteCommand_buffer_diff_current_bad_args (p : BufferDiffPlugin σ)
    (args : List GoValue) (w : World σ)
    (hargs : args = [] ∨ ¬ ∃ a rest, args = GoValue.str a :: rest) :
    p.ExecuteCommand "buffer-diff-current" args w
      = (some ⟨"PLUGIN_MESSAGE:buffer-diff-current requires 1 buffer name"⟩, w) := by
  have hcond : ¬ (args.length ≥ 1 ∧ (GoValue.index args 0).assertString.2) := by
    rintro ⟨hlen, h0⟩
    rcases args with _ | ⟨x, rest⟩
    · simp at hlen
    · obtain ⟨a, ha⟩ := (GoValue.assertString_ok _).1 h0
      simp only [GoValue.index, List.getD_cons_zero] at ha
      rcases hargs with hnil | hne
      · simp at hnil
      · exact hne ⟨a, rest, by rw [ha]⟩
  unfold BufferDiffPlugin.ExecuteCommand
  rw [if_neg (by decide), if_pos rfl, if_neg hcond]
  rfl

/-- C9 at the empty argument list, and at a list whose first element is a
boolean, on a plugin initialized with the sample host. -/
theorem ExecuteCommand_buffer_diff_current_bad_args_witness :
    (BufferDiffPlugin.mk (some sampleHost)).ExecuteCommand "buffer-diff-current" []
          ⟨sampleState, []⟩
        = (some ⟨"PLUGIN_MESSAGE:buffer-diff-current requires 1 buffer name"⟩,
            ⟨sampleState, []⟩)
      ∧ (BufferDiffPlugin.mk (some sampleHost)).ExecuteCommand "buffer-diff-current"
          [GoValue.bool true, GoValue.str "notes"] ⟨sampleState, []⟩
        = (some ⟨"PLUGIN_MESSAGE:buffer-diff-current requires 1 buffer name"⟩,
            ⟨sampleState, []⟩) :=
  ⟨ExecuteCommand_buffer_diff_current_bad_args _ [] _ (Or.inl rfl),
    ExecuteCommand_buffer_diff_current_bad_args _ [GoValue.bool true, GoValue.str "notes"] _
      (Or.inr (by rintro ⟨a, rest, h⟩; simp at h))⟩

/-- C10: on a plugin whose host is nil, `ExecuteCommand("buffer-diff", a, b)`
for strings `a`, `b` and `ExecuteCommand("buffer-diff-current", c)` for a
string `c` return the error `ERROR: host is nil`, and leave the world as it
was. -/
theorem ExecuteCommand_nil_host (p : BufferDiffPlugin σ) (a b c : String) (w : World σ)
    (hhost : p.host = none) :
    p.ExecuteCommand "buffer-diff" [GoValue.str a, GoValue.str b] w
        = (some ⟨"ERROR: host is nil"⟩, w)
      ∧ p.ExecuteCommand "buffer-diff-current" [GoValue.str c] w
        = (some ⟨"ERROR: host is nil"⟩, w) := by
  constructor
  · unfold BufferDiffPlugin.ExecuteCommand
    rw [if_pos rfl, if_pos (by simp [GoValue.index, GoValue.assertString])]
    simp [BufferDiffPlugin.HandleBufferDiff, hhost, fmt.Errorf]
  · unfold BufferDiffPlugin.ExecuteCommand
    rw [if_neg (by decide), if_pos rfl,
      if_pos (by simp [GoValue.index, GoValue.assertString])]
    simp [BufferDiffPlugin.HandleBufferDiffCurrent, hhost, fmt.Errorf]

/-- C10 at the names `buffer1`, `buffer2` of the test, on the plugin value
`&BufferDiffPlugin{}`. -/
theorem ExecuteCommand_nil_host_witness :
    (BufferDiffPlugin.mk none).ExecuteCommand "buffer-diff"
          [GoValue.str "buffer1", GoValue.str "buffer2"] (⟨sampleState, []⟩ : World _)
        = (some ⟨"ERROR: host is nil"⟩, ⟨sampleState, []⟩)
      ∧ (BufferDiffPlugin.mk none).ExecuteCommand "buffer-diff-current"
          [GoValue.str "buffer2"] (⟨sampleState, []⟩ : World _)
        = (some ⟨"ERROR: host is nil"⟩, ⟨sampleState, []⟩) :=
  ExecuteCommand_nil_host _ "buffer1" "buffer2" "buffer2" _ rfl

/-! ### Marker prefix of the errors of `ExecuteCommand` -/

/-- A string that a non-empty literal starts is not empty. -/
theorem append_ne_empty (a b : String) (ha : a ≠ "") : a ++ b ≠ "" := by
  intro h
  have hdata : (a ++ b).data = [] := by rw [h]
  rw [String.data_append] at hdata
  have hnil : a.data = [] := (List.append_eq_nil.1 hdata).1
  exact ha (String.ext hnil)

/-- A string starts with each string it is built from by appending. -/
theorem strings.HasPrefix_append (a b : String) : strings.HasPrefix (a ++ b) a = true := by
  unfold strings.HasPrefix
  rw [String.data_append, List.isPrefixOf_iff_prefix]
  exact List.prefix_append _ _

/-- A message built as `PLUGIN_MESSAGE:` followed by more text starts with the
marker. -/
theorem strings.HasPrefix_marker (a b : String) :
    strings.HasPrefix ("PLUGIN_MESSAGE:" ++ a ++ b) "PLUGIN_MESSAGE:" = true := by
  rw [String.append_assoc]
  exact strings.HasPrefix_append _ _

/-- `HandleBufferDiff` when the host does not find the first buffer. -/
theorem BufferDiffPlugin.HandleBufferDiff_first_missing (p : BufferDiffPlugin σ)
    (host : HostInterface σ) (hhost : p.host = some host) (a b : String) (w : World σ)
    (hmiss : (host.FindBuffer a w.state).1 = none) :
    (p.HandleBufferDiff a b w).1 = some ⟨"PLUGIN_MESSAGE:Buffer not found: " ++ a⟩ := by
  simp [BufferDiffPlugin.HandleBufferDiff, hhost, HostInterface.callFindBuffer, hmiss,
    fmt.Errorf]

/-- `HandleBufferDiff` when the host finds the first buffer and not the second. -/
theorem BufferDiffPlugin.HandleBufferDiff_second_missing (p : BufferDiffPlugin σ)
    (host : HostInterface σ) (hhost : p.host = some host) (a b : String) (w : World σ)
    (hfound : (host.FindBuffer a w.state).1 ≠ none)
    (hmiss : (host.FindBuffer b (host.FindBuffer a w.state).2).1 = none) :
    (p.HandleBufferDiff a b w).1 = some ⟨"PLUGIN_MESSAGE:Buffer not found: " ++ b⟩ := by
  cases h1 : (host.FindBuffer a w.state).1 with
  | none => exact absurd h1 hfound
  | some b1 =>
    simp [BufferDiffPlugin.HandleBufferDiff, hhost, HostInterface.callFindBuffer, h1, hmiss,
      fmt.Errorf]

/-- The message of the default branch of `ExecuteCommand` does not start with
the marker. -/
theorem unknown_command_unmarked (name : String) :
    strings.HasPrefix ("unknown command: " ++ name) "PLUGIN_MESSAGE:" = false := by
  unfold strings.HasPrefix
  rw [String.data_append]
  rfl

/-- C11 fails as stated: on a plugin initialized with the sample host, the
command name `frobnicate`, which the plugin does not support, gives the error
`unknown command: frobnicate`, which does not start with `PLUGIN_MESSAGE:`. -/
theorem ExecuteCommand_unknown_command_no_marker :
    ((BufferDiffPlugin.mk (some sampleHost)).ExecuteCommand "frobnicate" []
        ⟨sampleState, []⟩).1 = some ⟨"unknown command: frobnicate"⟩
      ∧ strings.HasPrefix "unknown command: frobnicate" "PLUGIN_MESSAGE:" = false := by
  constructor <;> decide

/-- C11, amended: on an initialized plugin, when the host does not find a
named buffer, the error of `ExecuteCommand` is `PLUGIN_MESSAGE:Buffer not
found: ` followed by the name of the missing buffer (the first one, when the
host finds neither), and starts with the marker `PLUGIN_MESSAGE:`; this for
the two names given to `buffer-diff` and, for `buffer-diff-current` with a
current buffer, for the current buffer's name and the name given. When the
command name is neither `buffer-diff` nor `buffer-diff-current`, the error is
`unknown command: ` followed by the name, and does not start with the marker. -/
theorem ExecuteCommand_domain_errors (p : BufferDiffPlugin σ) (host : HostInterface σ)
    (hhost : p.host = some host) (a b c name : String) (args : List GoValue) (w : World σ) :
    ((host.FindBuffer a w.state).1 = none →
        (p.ExecuteCommand "buffer-diff" [GoValue.str a, GoValue.str b] w).1
            = some ⟨"PLUGIN_MESSAGE:Buffer not found: " ++ a⟩
          ∧ strings.HasPrefix ("PLUGIN_MESSAGE:Buffer not found: " ++ a) "PLUGIN_MESSAGE:"
              = true)
      ∧ ((host.FindBuffer a w.state).1 ≠ none →
          (host.FindBuffer b (host.FindBuffer a w.state).2).1 = none →
          (p.ExecuteCommand "buffer-diff" [GoValue.str a, GoValue.str b] w).1
              = some ⟨"PLUGIN_MESSAGE:Buffer not found: " ++ b⟩
            ∧ strings.HasPrefix ("PLUGIN_MESSAGE:Buffer not found: " ++ b) "PLUGIN_MESSAGE:"
                = true)
      ∧ (∀ cur : BufferInterface σ, (host.GetCurrentBuffer w.state).1 = some cur →
          ((host.FindBuffer (cur.Name (host.GetCurrentBuffer w.state).2)
                (host.GetCurrentBuffer w.state).2).1 = none →
            (p.ExecuteCommand "buffer-diff-current" [GoValue.str c] w).1
                = some ⟨"PLUGIN_MESSAGE:Buffer not found: "
                    ++ cur.Name (host.GetCurrentBuffer w.state).2⟩
              ∧ strings.HasPrefix
                  ("PLUGIN_MESSAGE:Buffer not found: "
                    ++ cur.Name (host.GetCurrentBuffer w.state).2) "PLUGIN_MESSAGE:" = true)
          ∧ ((host.FindBuffer (cur.Name (host.GetCurrentBuffer w.state).2)
                (host.GetCurrentBuffer w.state).2).1 ≠ none →
            (host.FindBuffer c
                (host.FindBuffer (cur.Name (host.GetCurrentBuffer w.state).2)
                  (host.GetCurrentBuffer w.state).2).2).1 = none →
            (p.ExecuteCommand "buffer-diff-current" [GoValue.str c] w).1
                = some ⟨"PLUGIN_MESSAGE:Buffer not found: " ++ c⟩
              ∧ strings.HasPrefix ("PLUGIN_MESSAGE:Buffer not found: " ++ c)
                  "PLUGIN_MESSAGE:" = true))
      ∧ (name ≠ "buffer-diff" → name ≠ "buffer-diff-current" →
          (p.ExecuteCommand name args w).1 = some ⟨"unknown command: " ++ name⟩
            ∧ strings.HasPrefix ("unknown command: " ++ name) "PLUGIN_MESSAGE:" = false) := by
  have hrun : p.ExecuteCommand "buffer-diff" [GoValue.str a, GoValue.str b] w
      = p.HandleBufferDiff a b w := by
    unfold BufferDiffPlugin.ExecuteCommand
    rw [if_pos rfl, if_pos (by simp [GoValue.index, GoValue.assertString])]
    rfl
  refine ⟨?_, ?_, ?_, ?_⟩
  · intro hmiss
    rw [hrun]
    exact ⟨BufferDiffPlugin.HandleBufferDiff_first_missing p host hhost a b w hmiss,
      strings.HasPrefix_marker "Buffer not found: " a⟩
  · intro hfound hmiss
    rw [hrun]
    exact ⟨BufferDiffPlugin.HandleBufferDiff_second_missing p host hhost a b w hfound hmiss,
      strings.HasPrefix_marker "Buffer not found: " b⟩
  · intro cur hcur
    have hcurrent : p.ExecuteCommand "buffer-diff-current" [GoValue.str c] w
        = p.HandleBufferDiff (cur.Name (host.GetCurrentBuffer w.state).2) c
            (host.callGetCurrentBuffer w).2 := by
      unfold BufferDiffPlugin.ExecuteCommand
      rw [if_neg (by decide), if_pos rfl,
        if_pos (by simp [GoValue.index, GoValue.assertString])]
      simp [BufferDiffPlugin.HandleBufferDiffCurrent, hhost,
        HostInterface.callGetCurrentBuffer, hcur, GoValue.index, GoValue.assertString]
    constructor
    · intro hmiss
      rw [hcurrent]
      exact ⟨BufferDiffPlugin.HandleBufferDiff_first_missing p host hhost _ c _ hmiss,
        strings.HasPrefix_marker "Buffer not found: " _⟩
    · intro hfound hmiss
      rw [hcurrent]
      exact ⟨BufferDiffPlugin.HandleBufferDiff_second_missing p host hhost _ c _ hfound hmiss,
        strings.HasPrefix_marker "Buffer not found: " c⟩
  · intro h1 h2
    refine ⟨?_, unknown_command_unmarked name⟩
    unfold BufferDiffPlugin.ExecuteCommand
    rw [if_neg h1, if_neg h2]
    rfl

/-- C11, amended, on a plugin initialized with the sample host, whose buffers
are `notes` (the current one) and `draft`: the name `missing` is not found, as
first name and as second name, and the command `frobnicate` is not supported;
and on a host whose current buffer `ghost` it does not find. -/
theorem ExecuteCommand_domain_errors_witness :
    ((BufferDiffPlugin.mk (some sampleHost)).ExecuteCommand "buffer-diff"
          [GoValue.str "missing", GoValue.str "notes"] ⟨sampleState, []⟩).1
        = some ⟨"PLUGIN_MESSAGE:Buffer not found: missing"⟩
      ∧ ((BufferDiffPlugin.mk (some sampleHost)).ExecuteCommand "buffer-diff"
          [GoValue.str "notes", GoValue.str "missing"] ⟨sampleState, []⟩).1
        = some ⟨"PLUGIN_MESSAGE:Buffer not found: missing"⟩
      ∧ ((BufferDiffPlugin.mk (some sampleHost)).ExecuteCommand "buffer-diff"
          [GoValue.str "absent", GoValue.str "missing"] ⟨sampleState, []⟩).1
        = some ⟨"PLUGIN_MESSAGE:Buffer not found: absent"⟩
      ∧ ((BufferDiffPlugin.mk (some orphanHost)).ExecuteCommand "buffer-diff-current"
          [GoValue.str "notes"] ⟨(), []⟩).1
        = some ⟨"PLUGIN_MESSAGE:Buffer not found: ghost"⟩
      ∧ ((BufferDiffPlugin.mk (some sampleHost)).ExecuteCommand "buffer-diff-current"
          [GoValue.str "missing"] ⟨sampleState, []⟩).1
        = some ⟨"PLUGIN_MESSAGE:Buffer not found: missing"⟩
      ∧ (((BufferDiffPlugin.mk (some sampleHost)).ExecuteCommand "frobnicate" []
            ⟨sampleState, []⟩).1 = some ⟨"unknown command: frobnicate"⟩
          ∧ strings.HasPrefix "unknown command: frobnicate" "PLUGIN_MESSAGE:" = false) :=
  ⟨((ExecuteCommand_domain_errors ⟨some sampleHost⟩ sampleHost rfl "missing" "notes" "missing"
      "frobnicate" [] ⟨sampleState, []⟩).1 rfl).1,
    ((ExecuteCommand_domain_errors ⟨some sampleHost⟩ sampleHost rfl "notes" "missing" "missing"
      "frobnicate" [] ⟨sampleState, []⟩).2.1 (Option.some_ne_none (sampleHandle "notes"))
      rfl).1,
    ((ExecuteCommand_domain_errors ⟨some sampleHost⟩ sampleHost rfl "absent" "missing" "missing"
      "frobnicate" [] ⟨sampleState, []⟩).1 rfl).1,
    (((ExecuteCommand_domain_errors ⟨some orphanHost⟩ orphanHost rfl "a" "b" "notes"
      "frobnicate" [] ⟨(), []⟩).2.2.1 _ rfl).1 rfl).1,
    (((ExecuteCommand_domain_errors ⟨some sampleHost⟩ sampleHost rfl "notes" "missing" "missing"
      "frobnicate" [] ⟨sampleState, []⟩).2.2.1 (sampleHandle "notes") rfl).2
      (Option.some_ne_none (sampleHandle "notes")) rfl).1,
    (ExecuteCommand_domain_errors ⟨some sampleHost⟩ sampleHost rfl "notes" "missing" "missing"
      "frobnicate" [] ⟨sampleState, []⟩).2.2.2 (by decide) (by decide)⟩

/-! ### Mutators of the buffer proxy -/

/-- The three mutators of `RPCBufferProxy` that have a body update the local
snapshot and leave its other fields as they were. -/
theorem RPCBufferProxy.mutators_update_snapshot (b : RPCBufferProxy) (t : String) (pos : Int) :
    (b.SetContent t).info = { b.info with Content := t }
      ∧ (b.SetContent t).Content = t
      ∧ (b.SetCursorPosition pos).info = { b.info with Position := pos }
      ∧ (b.SetCursorPosition pos).CursorPosition = pos
      ∧ (b.MarkDirty).info = { b.info with IsDirty := true }
      ∧ (b.MarkDirty).IsDirty = true :=
  ⟨rfl, rfl, rfl, rfl, rfl, rfl⟩

/-- The bodies of `InsertAt` and `DeleteRange` are empty: the proxy is
unchanged. -/
theorem RPCBufferProxy.InsertAt_DeleteRange_unchanged (b : RPCBufferProxy)
    (pos start stop : Int) (text : String) :
    b.InsertAt pos text = b ∧ b.DeleteRange start stop = b :=
  ⟨rfl, rfl⟩

/-- C12 (code at the failing inputs): on a proxy whose content is `hello`,
`InsertAt(5, " world")` leaves `Content()` at `hello`, not `hello world`, and
`DeleteRange(0, 2)` leaves `Content()` at `hello`, not `llo`; `SetContent`,
`SetCursorPosition` and `MarkDirty` do update the snapshot. -/
theorem RPCBufferProxy_InsertAt_DeleteRange_stale :
    sampleProxy.Content = "hello"
      ∧ (sampleProxy.InsertAt 5 " world").Content = "hello"
      ∧ (sampleProxy.InsertAt 5 " world").Content ≠ "hello world"
      ∧ (sampleProxy.DeleteRange 0 2).Content = "hello"
      ∧ (sampleProxy.DeleteRange 0 2).Content ≠ "llo"
      ∧ (sampleProxy.SetContent "bye").Content = "bye"
      ∧ (sampleProxy.SetCursorPosition 4).CursorPosition = 4
      ∧ (sampleProxy.MarkDirty).IsDirty = true := by
  refine ⟨?_, ?_, ?_, ?_, ?_, ?_, ?_, ?_⟩ <;> decide

/-! ### `ExecuteCommand` always returns an error -/

/-- The result of `fmt.Errorf` on a text that a non-empty literal starts is an
error with a non-empty message. -/
theorem fmt.Errorf_nonempty (a b : String) (ha : a ≠ "") :
    ∃ e : GoError, fmt.Errorf (a ++ b) = some e ∧ e.msg ≠ "" :=
  ⟨⟨a ++ b⟩, rfl, append_ne_empty a b ha⟩

/-- The result of `fmt.Errorf` on a non-empty text is an error with a
non-empty message. -/
theorem fmt.Errorf_nonempty_lit (a : String) (ha : a ≠ "") :
    ∃ e : GoError, fmt.Errorf a = some e ∧ e.msg ≠ "" :=
  ⟨⟨a⟩, rfl, ha⟩

/-- `HandleBufferDiff` returns a non-nil error with a non-empty message on
every path, the completed diff included. -/
theorem BufferDiffPlugin.HandleBufferDiff_returns_error (p : BufferDiffPlugin σ)
    (a b : String) (w : World σ) :
    ∃ e : GoError, (p.HandleBufferDiff a b w).1 = some e ∧ e.msg ≠ "" := by
  unfold BufferDiffPlugin.HandleBufferDiff
  split
  · exact fmt.Errorf_nonempty_lit _ (by decide)
  · dsimp only
    split
    · exact fmt.Errorf_nonempty _ _ (by decide)
    · split
      · exact fmt.Errorf_nonempty _ _ (by decide)
      · split
        · exact fmt.Errorf_nonempty_lit _ (by decide)
        · split
          · exact fmt.Errorf_nonempty _ _ (by decide)
          · rw [String.append_assoc]
            exact fmt.Errorf_nonempty _ _ (by decide)

/-- `HandleBufferDiffCurrent` returns a non-nil error with a non-empty message
on every path. -/
theorem BufferDiffPlugin.HandleBufferDiffCurrent_returns_error (p : BufferDiffPlugin σ)
    (c : String) (w : World σ) :
    ∃ e : GoError, (p.HandleBufferDiffCurrent c w).1 = some e ∧ e.msg ≠ "" := by
  unfold BufferDiffPlugin.HandleBufferDiffCurrent
  split
  · exact fmt.Errorf_nonempty_lit _ (by decide)
  · dsimp only
    split
    · exact fmt.Errorf_nonempty_lit _ (by decide)
    · exact BufferDiffPlugin.HandleBufferDiff_returns_error p _ c _

/-- `ExecuteCommand` returns a non-nil error with a non-empty message for every
command name, argument list, plugin state and world. -/
theorem BufferDiffPlugin.ExecuteCommand_returns_error (p : BufferDiffPlugin σ)
    (name : String) (args : List GoValue) (w : World σ) :
    ∃ e : GoError, (p.ExecuteCommand name args w).1 = some e ∧ e.msg ≠ "" := by
  unfold BufferDiffPlugin.ExecuteCommand
  split
  · split
    · exact BufferDiffPlugin.HandleBufferDiff_returns_error p _ _ w
    · exact fmt.Errorf_nonempty_lit _ (by decide)
  · split
    · split
      · exact BufferDiffPlugin.HandleBufferDiffCurrent_returns_error p _ w
      · exact fmt.Errorf_nonempty_lit _ (by decide)
    · exact fmt.Errorf_nonempty _ _ (by decide)

/-- C13: `BufferDiffPlugin.ExecuteCommand` never returns a nil error, whatever
the command name, the argument list, the host (nil or not) and the world; and
the reply string that `RPCServer.ExecuteCommand` writes for this plugin is
never empty, whatever the request map and the state of the plugin process. A
completed diff is itself an error: on the sample host, comparing `notes` with
`draft` returns `PLUGIN_MESSAGE:Buffer diff completed: 4 differences found`. -/
theorem ExecuteCommand_never_nil (p : BufferDiffPlugin σ) (name : String)
    (args : List GoValue) (w : World σ)
    (toHost : RPCHostClient Conn → HostInterface σ) (broker : MuxBroker Conn)
    (request : GoMap) (st : BufferDiffPlugin σ × World σ) :
    (p.ExecuteCommand name args w).1 ≠ none
      ∧ ((RPCServer.mk (BufferDiffPlugin.asPlugin toHost) broker).ExecuteCommand
          request st).1.resp ≠ ""
      ∧ ((BufferDiffPlugin.mk (some sampleHost)).ExecuteCommand "buffer-diff"
          [GoValue.str "notes", GoValue.str "draft"] ⟨sampleState, []⟩).1
          = some ⟨"PLUGIN_MESSAGE:Buffer diff completed: 4 differences found"⟩ := by
  refine ⟨?_, ?_, by decide⟩
  · obtain ⟨e, he, _⟩ := BufferDiffPlugin.ExecuteCommand_returns_error p name args w
    rw [he]
    exact Option.some_ne_none e
  · obtain ⟨e, he, hmsg⟩ := BufferDiffPlugin.ExecuteCommand_returns_error st.1
      (GoMap.index request "name").assertString.1
      (GoMap.index request "args").assertSlice.1 st.2
    simp only [RPCServer.ExecuteCommand, BufferDiffPlugin.asPlugin, he]
    exact hmsg

/-! ### `createSimpleDiff` and `countDifferences` -/

/-- The loop of `createSimpleDiff` appends to what it starts from. -/
theorem foldl_append_from (g : Nat → List String) (l : List Nat) (init : List String) :
    l.foldl (fun result i => result ++ g i) init
      = init ++ l.foldl (fun result i => result ++ g i) [] := by
  induction l using List.reverseRecOn generalizing init with
  | nil => simp
  | append_singleton l i ih =>
    rw [List.foldl_append, List.foldl_append, ih init]
    simp

/-- On equal line lists the loop body at an index inside the list appends
that line after one space. -/
theorem createSimpleDiffStep_same (lines : List String) (i : Nat) (hi : i < lines.length) :
    createSimpleDiffStep lines lines i = [" " ++ lines.get ⟨i, hi⟩] := by
  simp [createSimpleDiffStep, hi]

/-- On equal line lists the first `n` rounds of the loop give the first `n`
lines, each after one space. -/
theorem createSimpleDiff_loop_same (lines : List String) (n : Nat) (hn : n ≤ lines.length) :
    (List.range n).foldl (fun result i => result ++ createSimpleDiffStep lines lines i) []
      = (lines.take n).map (fun line => " " ++ line) := by
  induction n with
  | zero => simp
  | succ n ih =>
    have hlt : n < lines.length := hn
    rw [List.range_succ, List.foldl_append, ih (Nat.le_of_lt hlt), List.take_succ,
      List.getElem?_eq_getElem hlt, List.map_append]
    simp only [List.foldl_cons, List.foldl_nil, createSimpleDiffStep_same lines n hlt]
    rfl

/-- The count of `countDifferences` started at `k` is `k` more than the count
started at 0. -/
theorem countDifferences_from (diff : List String) (k : Nat) :
    diff.foldl
        (fun count line =>
          if strings.HasPrefix line "-" || strings.HasPrefix line "+" then count + 1
          else count) k
      = k + BufferDiffPlugin.countDifferences diff := by
  unfold BufferDiffPlugin.countDifferences
  induction diff generalizing k with
  | nil => simp
  | cons line rest ih =>
    simp only [List.foldl_cons]
    rw [ih]
    conv_rhs => rw [ih]
    by_cases hc : (strings.HasPrefix line "-" || strings.HasPrefix line "+") = true
    · rw [if_pos hc, if_pos hc]
      omega
    · rw [if_neg hc, if_neg hc]
      omega

/-- The count of a concatenation is the sum of the counts. -/
theorem BufferDiffPlugin.countDifferences_append (xs ys : List String) :
    BufferDiffPlugin.countDifferences (xs ++ ys)
      = BufferDiffPlugin.countDifferences xs + BufferDiffPlugin.countDifferences ys := by
  conv_lhs => unfold BufferDiffPlugin.countDifferences
  rw [List.foldl_append, countDifferences_from]
  rfl

/-- The three header lines count for two differences, whatever the names. -/
theorem BufferDiffPlugin.countDifferences_header (n1 n2 : String) :
    BufferDiffPlugin.countDifferences ["--- " ++ n1, "+++ " ++ n2, ""] = 2 := by
  have h1 : strings.HasPrefix ("--- " ++ n1) "-" = true := by
    unfold strings.HasPrefix
    rw [String.data_append]
    rfl
  have h2 : strings.HasPrefix ("+++ " ++ n2) "-" = false := by
    unfold strings.HasPrefix
    rw [String.data_append]
    rfl
  have h3 : strings.HasPrefix ("+++ " ++ n2) "+" = true := by
    unfold strings.HasPrefix
    rw [String.data_append]
    rfl
  have h4 : strings.HasPrefix "" "-" = false := by decide
  have h5 : strings.HasPrefix "" "+" = false := by decide
  simp [BufferDiffPlugin.countDifferences, h1, h2, h3, h4, h5]

/-- Lines that start with a space count for no difference. -/
theorem BufferDiffPlugin.countDifferences_context (lines : List String) :
    BufferDiffPlugin.countDifferences (lines.map (fun line => " " ++ line)) = 0 := by
  induction lines with
  | nil => rfl
  | cons line rest ih =>
    have hminus : strings.HasPrefix (" " ++ line) "-" = false := by
      unfold strings.HasPrefix
      rw [String.data_append]
      rfl
    have hplus : strings.HasPrefix (" " ++ line) "+" = false := by
      unfold strings.HasPrefix
      rw [String.data_append]
      rfl
    rw [List.map_cons,
      show (" " ++ line) :: rest.map (fun line => " " ++ line)
        = [" " ++ line] ++ rest.map (fun line => " " ++ line) from rfl,
      BufferDiffPlugin.countDifferences_append, ih]
    simp [BufferDiffPlugin.countDifferences, hminus, hplus]

/-- The result of `createSimpleDiff` starts with the three header lines. -/
theorem BufferDiffPlugin.createSimpleDiff_header (n1 c1 n2 c2 : String) :
    ∃ body : List String,
      BufferDiffPlugin.createSimpleDiff n1 c1 n2 c2
        = ["--- " ++ n1, "+++ " ++ n2, ""] ++ body := by
  unfold BufferDiffPlugin.createSimpleDiff
  dsimp only
  rw [foldl_append_from]
  exact ⟨_, rfl⟩

/-- C14: on equal contents `createSimpleDiff(n1, c, n2, c)` is the header
`--- n1`, `+++ n2`, the empty line, followed by each line of `c` (split on the
newline) after one space; `countDifferences` of it is exactly 2; and for any
two contents `countDifferences(createSimpleDiff(n1, c1, n2, c2))` is at
least 2. -/
theorem createSimpleDiff_same_content (n1 n2 c c1 c2 : String) :
    BufferDiffPlugin.createSimpleDiff n1 c n2 c
        = ["--- " ++ n1, "+++ " ++ n2, ""]
            ++ (strings.Split c '\n').map (fun line => " " ++ line)
      ∧ BufferDiffPlugin.countDifferences (BufferDiffPlugin.createSimpleDiff n1 c n2 c) = 2
      ∧ 2 ≤ BufferDiffPlugin.countDifferences
              (BufferDiffPlugin.createSimpleDiff n1 c1 n2 c2) := by
  have hsame : BufferDiffPlugin.createSimpleDiff n1 c n2 c
      = ["--- " ++ n1, "+++ " ++ n2, ""]
          ++ (strings.Split c '\n').map (fun line => " " ++ line) := by
    unfold BufferDiffPlugin.createSimpleDiff
    dsimp only
    rw [if_neg (Nat.lt_irrefl _), foldl_append_from,
      createSimpleDiff_loop_same _ _ (Nat.le_refl _), List.take_length]
  refine ⟨hsame, ?_, ?_⟩
  · rw [hsame, BufferDiffPlugin.countDifferences_append,
      BufferDiffPlugin.countDifferences_header, BufferDiffPlugin.countDifferences_context]
  · obtain ⟨body, hbody⟩ := BufferDiffPlugin.createSimpleDiff_header n1 c1 n2 c2
    rw [hbody, BufferDiffPlugin.countDifferences_append,
      BufferDiffPlugin.countDifferences_header]
    omega

end GmacsDiff
